import Mathlib

/-!
Shallow embedding of `voxel-discrete-control` (`src/index.js`): a discrete
movement controller that turns queued movement commands into per-frame
position and rotation updates on a host-owned scene object.

Numbers are modelled as rationals.  JavaScript `null` and `undefined` are
modelled explicitly exactly where the program can observe them: bound sides
(`minx`..`maxz`) may be numbers, `null` (the constructor default) or
`undefined` (an absent key, e.g. after `setMovementBounds({})`), and position
coordinates may hold `null` because `setPosition` assigns the raw bound
value.  Every numeric read in the program funnels a coordinate through JS
`ToNumber`, which maps `null` to `0`; a relational comparison against
`undefined` is `NaN`-false.
-/

namespace VoxelDC

/-- A JS value held in a position coordinate: a number, or `null` (which
`setPosition` writes when a violated bound side is `null`).  `ToNumber` maps
`null` to `0`. -/
inductive Coord where
  | num (q : ℚ)
  | jnull
deriving DecidableEq

def Coord.toQ : Coord → ℚ
  | .num q => q
  | .jnull => 0

/-- A configured bound side: `none` is JS `undefined` (absent key),
`some .jnull` is an explicit `null` (the constructor default),
`some (.num q)` a numeric bound. -/
abbrev BoundSide := Option Coord

/-- The six optional bound sides (`this.bounds`). -/
structure Bounds where
  minx : BoundSide
  maxx : BoundSide
  miny : BoundSide
  maxy : BoundSide
  minz : BoundSide
  maxz : BoundSide
deriving DecidableEq

/-- The constructor default (index.js line 28): every side is `null`. -/
def defaultBounds : Bounds :=
  ⟨some .jnull, some .jnull, some .jnull, some .jnull, some .jnull, some .jnull⟩

/-- The empty bounds object `{}` (the `setMovementBounds` fallback, and what a
caller passes to get genuinely unbounded movement): every side `undefined`. -/
def noBounds : Bounds := ⟨none, none, none, none, none, none⟩

/-- One `if (position.a < this.bounds.mina) target.yaw.position.a =
this.bounds.mina` step of `setPosition`.  JS `<` applies `ToNumber` to both
operands: `ToNumber(null) = 0`, and a comparison against `undefined` is
`false` (`NaN`).  On violation the raw bound value (possibly `null`) is
assigned. -/
def clampMin (pv : ℚ) (tv : Coord) (b : BoundSide) : Coord :=
  match b with
  | none => tv
  | some c => if pv < c.toQ then c else tv

/-- The max-side counterpart (`if (position.a > this.bounds.maxa) ...`). -/
def clampMax (pv : ℚ) (tv : Coord) (b : BoundSide) : Coord :=
  match b with
  | none => tv
  | some c => if pv > c.toQ then c else tv

/-- `target.yaw.position`: a 3-point whose coordinates can hold `null` after
clamping. -/
structure CVec where
  x : Coord
  y : Coord
  z : Coord
deriving DecidableEq

/-- A plain numeric 3-vector (`avatar.position`, `_endpos`, velocity,
acceleration, local axes). -/
structure QVec where
  x : ℚ
  y : ℚ
  z : ℚ
deriving DecidableEq

def QVec.add (a b : QVec) : QVec := ⟨a.x + b.x, a.y + b.y, a.z + b.z⟩

def QVec.smul (c : ℚ) (a : QVec) : QVec := ⟨c * a.x, c * a.y, c * a.z⟩

def qzero : QVec := ⟨0, 0, 0⟩

/-- `proto.setPosition(target, position)` (index.js 251-271) as invoked from
the completion branch, `setPosition(target, endpos)` (line 75): `position` is
the separate `_endpos` object, so all six comparisons read `endpos` while the
writes go to `target.yaw.position`.  Note the body only writes bound values on
violation; it never copies `position` into the target. -/
def setPositionFrom (b : Bounds) (p : QVec) (t : CVec) : CVec :=
  let tx := clampMax p.x (clampMin p.x t.x b.minx) b.maxx
  let ty := clampMax p.y (clampMin p.y t.y b.miny) b.maxy
  let tz := clampMax p.z (clampMin p.z t.z b.minz) b.maxz
  ⟨tx, ty, tz⟩

/-- `setPosition(target, target.yaw.position)` as invoked from the per-frame
branch (line 125): the `position` argument aliases the live position, so the
max-side comparison reads the value the min-side branch may just have
written. -/
def setPositionSelf (b : Bounds) (t : CVec) : CVec :=
  let tx1 := clampMin t.x.toQ t.x b.minx
  let tx2 := clampMax tx1.toQ tx1 b.maxx
  let ty1 := clampMin t.y.toQ t.y b.miny
  let ty2 := clampMax ty1.toQ ty1 b.maxy
  let tz1 := clampMin t.z.toQ t.z b.minz
  let tz2 := clampMax tz1.toQ tz1 b.maxz
  ⟨tx2, ty2, tz2⟩

/-- A raw command object.  Numeric fields are `Option ℚ`: `none` models an
absent/`undefined` field and also `false` (`validateAction` writes `false`
into cleared fields; both are falsy and both read back as `0` under `|| 0`,
which is all this program ever does with them).  `moveto` is a point; the
code reads only its `x` (`.1`) and `z` (`.2`) components, identically for the
array and the object form.  `translateY` exists because `validateAction`
reads and writes it. -/
structure Act where
  forward : Option ℚ := none
  backward : Option ℚ := none
  left : Option ℚ := none
  right : Option ℚ := none
  translateX : Option ℚ := none
  translateY : Option ℚ := none
  translateZ : Option ℚ := none
  moveto : Option (ℚ × ℚ) := none
  rotate : Option ℚ := none
  duration : Option ℚ := none
  height : Option ℚ := none
  fire : Bool := false
  firealt : Bool := false
  jump : Bool := false
deriving DecidableEq

/-- JS truthiness of a numeric field: absent/`false` and `0` are falsy. -/
def truthy : Option ℚ → Bool
  | none => false
  | some q => decide (q ≠ 0)

/-- JS `v || d` on a numeric field. -/
def jsOr (v : Option ℚ) (d : ℚ) : ℚ :=
  match v with
  | none => d
  | some q => if q = 0 then d else q

/-- `action.height===undefined? .5: action.height` (line 180): only a missing
field gets the default; an explicit `0` is preserved. -/
def heightDefault (v : Option ℚ) : ℚ :=
  match v with
  | none => (1 : ℚ) / 2
  | some q => q

/-- `proto.validateAction` (index.js 208-229), run on the raw command before
`moveto` conversion and the `backward`/`right` sign folds.  Note that the
absolute-intent tests on lines 209, 221 and 225 read `action.translateY` — a
field no other code in the program ever sets or uses — and never read
`action.translateZ`. -/
def validateAction (a : Act) : Act :=
  let a := if truthy a.rotate &&
      (truthy a.forward || truthy a.backward || truthy a.left || truthy a.right ||
       truthy a.translateX || truthy a.translateY || a.moveto.isSome)
    then { a with rotate := none } else a
  let a := if truthy a.forward && truthy a.backward
    then { a with backward := none } else a
  let a := if truthy a.left && truthy a.right
    then { a with right := none } else a
  let a := if (truthy a.translateX || truthy a.translateY || a.moveto.isSome) &&
      (truthy a.forward || truthy a.backward || truthy a.left || truthy a.right)
    then { a with forward := none, backward := none, left := none, right := none } else a
  let a := if (truthy a.translateX || truthy a.translateY) && a.moveto.isSome
    then { a with translateX := none, translateY := none } else a
  a

/-- The controlled host object (a voxel-player-style character).  `yawpos` is
`target.yaw.position`, the world position: clamped by `setPosition`, written
by the parabola and by the absolute translations.  `avatarpos` is
`target.avatar.position`, moved by the rotation-aware `translateX`/
`translateZ`; the avatar's local axes are host data we carry as `xAxis` and
`zAxis`.  `restingY` is the truthiness of `target.resting.y`; `hasGravity`
records whether the gravity force is in the applied-force set. -/
structure Target where
  yawpos : CVec
  rotY : ℚ
  avatarpos : QVec
  xAxis : QVec
  zAxis : QVec
  restingY : Bool
  velocity : QVec
  accel : QVec
  hasGravity : Bool
deriving DecidableEq

/-- `avatar.translateZ(d)`: move `d` along the avatar's local z axis. -/
def Target.translateZrel (t : Target) (d : ℚ) : Target :=
  { t with avatarpos := t.avatarpos.add (QVec.smul d t.zAxis) }

/-- `avatar.translateX(d)`: move `d` along the avatar's local x axis. -/
def Target.translateXrel (t : Target) (d : ℚ) : Target :=
  { t with avatarpos := t.avatarpos.add (QVec.smul d t.xAxis) }

/-- The normalized action record as it exists after `setupAction`: the
surviving intent fields, the resolved numeric values (`duration`, `height`,
`rotate`, `_moverel_*`, `_moveabs_*`), and the precomputed start/end state.
The rotation accumulators stay `undefined` (`none`) until
`createWriteRotationStream` initializes them. -/
structure NAct where
  forward : Option ℚ
  backward : Option ℚ
  left : Option ℚ
  right : Option ℚ
  translateX : Option ℚ
  translateZ : Option ℚ
  rotate : ℚ
  duration : ℚ
  height : ℚ
  moverel_x : ℚ
  moverel_z : ℚ
  moveabs_x : ℚ
  moveabs_z : ℚ
  startpos : CVec
  endpos : QVec
  startrotate : ℚ
  endrotate : ℚ
  elapsed : ℚ
  fire : Bool
  firealt : Bool
  jump : Bool
  x_rotation_accum : Option ℚ
  y_rotation_accum : Option ℚ
  z_rotation_accum : Option ℚ
deriving DecidableEq

/-- `proto.getEndPosition` (index.js 231-249): apply the resolved
translations once to a scratch copy of `avatar.position` and return the
result; the avatar's position is restored afterwards, so the function is
pure in the target. -/
def getEndPosition (t : Target) (a : Act) : QVec :=
  let p := t.avatarpos
  let p := if truthy a.forward then p.add (QVec.smul (-(jsOr a.forward 0)) t.zAxis) else p
  let p := if truthy a.left then p.add (QVec.smul (-(jsOr a.left 0)) t.xAxis) else p
  let p := if truthy a.translateZ then { p with z := p.z + jsOr a.translateZ 0 } else p
  let p := if truthy a.translateX then { p with x := p.x + jsOr a.translateX 0 } else p
  p

/-- One outbound status snapshot (`emitUpdate`'s object literal, index.js
323-334). -/
structure Snapshot where
  x_rotation_accum : Option ℚ
  y_rotation_accum : Option ℚ
  z_rotation_accum : Option ℚ
  forward : Option ℚ
  backward : Option ℚ
  left : Option ℚ
  right : Option ℚ
  fire : Bool
  firealt : Bool
  jump : Bool
deriving DecidableEq

/-- Controller state: the `DiscreteControl` instance fields plus the
module-global drop counter `numdroppedactions`. -/
structure DC where
  action : Option NAct
  target : Option Target
  max_actions : ℕ
  bounds : Bounds
  queue : List Act
  buffer : List Snapshot
  paused : Bool
  dropped : ℕ
deriving DecidableEq

/-- `control(gravity, opts)` / the `DiscreteControl` constructor (index.js
5-33).  `opts.maxActions || 1024`; `opts.movementBounds || {null sides}`. -/
def control (maxActions : Option ℕ) (movementBounds : Option Bounds) : DC :=
  { action := none
  , target := none
  , max_actions := match maxActions with
      | none => 1024
      | some m => if m = 0 then 1024 else m
  , bounds := match movementBounds with
      | none => defaultBounds
      | some b => b
  , queue := []
  , buffer := []
  , paused := false
  , dropped := 0 }

/-- `proto.setMovementBounds` (index.js 40-42): `movementBounds || {}` — a
missing argument installs the empty object, whose sides are all
`undefined`. -/
def setMovementBounds (s : DC) (mb : Option Bounds) : DC :=
  { s with bounds := match mb with | none => noBounds | some b => b }

/-- Lines 156-176 of `setupAction`: `validateAction`, the `moveto` →
`translateX`/`translateZ` conversion against the current yaw position, and
the `backward`/`right` sign folds. -/
def normalizeIntents (t : Target) (a0 : Act) : Act :=
  let a := validateAction a0
  let a := match a.moveto with
    | none => a
    | some mv =>
      { a with
        translateZ := some (mv.2 - t.yawpos.z.toQ),
        translateX := some (mv.1 - t.yawpos.x.toQ) }
  let a := if truthy a.backward
    then { a with forward := some (-(jsOr a.backward 0)), backward := none } else a
  let a := if truthy a.right
    then { a with left := some (-(jsOr a.right 0)), right := none } else a
  a

/-- Lines 178-192 of `setupAction`: the defaults (`duration || 1000`,
`height === undefined ? .5`, `rotate || 0`), the resolved `_moverel_*` /
`_moveabs_*` magnitudes, and the precomputed start/end state, assembled into
the normalized action record. -/
def mkNAct (t : Target) (a0 : Act) : NAct :=
  let a := normalizeIntents t a0
  { forward := a.forward
    , backward := a.backward
    , left := a.left
    , right := a.right
    , translateX := a.translateX
    , translateZ := a.translateZ
    , rotate := jsOr a.rotate 0
    , duration := jsOr a.duration 1000
    , height := heightDefault a.height
    , moverel_x := jsOr a.left 0
    , moverel_z := jsOr a.forward 0
    , moveabs_x := jsOr a.translateX 0
    , moveabs_z := jsOr a.translateZ 0
    , startpos := t.yawpos
    , endpos := getEndPosition t a
    , startrotate := t.rotY
    , endrotate := t.rotY + jsOr a.rotate 0
    , elapsed := 0
    , fire := a.fire
    , firealt := a.firealt
    , jump := a.jump
    , x_rotation_accum := none
    , y_rotation_accum := none
    , z_rotation_accum := none }

/-- `proto.setupAction` (index.js 139-198): with no current action, a
non-empty queue and a resting target, dequeue the head, normalize it into
`mkNAct`, and suspend gravity (zeroing velocity and acceleration).  A `null`
target here would make JS throw at `resting.y`; `tick` guards the target,
and we return the state unchanged in that unreachable case. -/
def setupAction (s : DC) : DC :=
  match s.action with
  | some _ => s
  | none =>
  match s.queue with
  | [] => s
  | a0 :: rest =>
  match s.target with
  | none => s
  | some t =>
  if !t.restingY then s else
  { s with
    action := some (mkNAct t a0),
    queue := rest,
    target := some { t with velocity := qzero, accel := qzero, hasGravity := false } }

/-- `proto.teardownAction` (index.js 200-205): zero velocity and
acceleration and re-apply the gravity force. -/
def teardownAction (t : Target) : Target :=
  { t with velocity := qzero, accel := qzero, hasGravity := true }

/-- `proto.tick(dt)` (index.js 44-127).  No-op without a target; runs
`setupAction`; accumulates `dt` into `_elapsed`; on `elapsed >= duration`
calls `setPosition(target, endpos)` (which only clamps), writes `_endrotate`,
nulls the action and tears down physics; otherwise applies the per-frame
relative/absolute/rotational deltas, overwrites `y` with the parabola from
total elapsed time, and clamps the live position. -/
def tick (s : DC) (dt : ℚ) : DC :=
  match s.target with
  | none => s
  | some _ =>
  let s := setupAction s
  match s.action, s.target with
  | some a0, some t =>
    let a := { a0 with elapsed := a0.elapsed + dt }
    if a.elapsed ≥ a.duration then
      let t := { t with yawpos := setPositionFrom s.bounds a.endpos t.yawpos }
      let t := { t with rotY := a.endrotate }
      { s with action := none, target := some (teardownAction t) }
    else
      let t := if truthy a.forward then t.translateZrel (-(a.moverel_z / a.duration * dt)) else t
      let t := if truthy a.left then t.translateXrel (-(a.moverel_x / a.duration * dt)) else t
      let t := if truthy a.translateZ then
          { t with yawpos := { t.yawpos with z := .num (t.yawpos.z.toQ + a.moveabs_z / a.duration * dt) } }
        else t
      let t := if truthy a.translateX then
          { t with yawpos := { t.yawpos with x := .num (t.yawpos.x.toQ + a.moveabs_x / a.duration * dt) } }
        else t
      let t := if a.rotate ≠ 0 then { t with rotY := t.rotY + a.rotate / a.duration * dt } else t
      let curvature := a.height / (a.duration / 2) ^ 2
      let t := { t with yawpos :=
        { t.yawpos with y := .num (-curvature * (a.elapsed - a.duration / 2) ^ 2 + a.height + a.startpos.y.toQ) } }
      let t := { t with yawpos := setPositionSelf s.bounds t.yawpos }
      { s with action := some a, target := some t }
  | _, _ => s

/-- `proto.reset` (index.js 130-136): empty the queue and, if an action is
active, tear it down and null it.  (An active action with a `null` target
would make JS throw inside `teardownAction`, after the queue is already
emptied; that unreachable case is modelled as the queue-emptied state.) -/
def reset (s : DC) : DC :=
  let s := { s with queue := ([] : List Act) }
  match s.action, s.target with
  | some _, some t => { s with action := none, target := some (teardownAction t) }
  | _, _ => s

/-- `proto.write` (index.js 273-283): drop the command (incrementing the
global counter and returning `false`) when the queue already holds more than
`max_actions` entries; otherwise push it (the function then returns
`undefined`, modelled as `none`). -/
def write (s : DC) (a : Act) : DC × Option Bool :=
  if s.queue.length > s.max_actions then
    ({ s with dropped := s.dropped + 1 }, some false)
  else
    ({ s with queue := s.queue ++ [a] }, none)

/-- A sequence of `write` calls, collecting each call's return value. -/
def writeTrace : DC → List Act → DC × List (Option Bool)
  | s, [] => (s, [])
  | s, a :: l =>
    let sr := write s a
    let rest := writeTrace sr.1 l
    (rest.1, sr.2 :: rest.2)

/-- The object literal built by `emitUpdate` (index.js 323-334) from the
current action. -/
def mkSnapshot (n : NAct) : Snapshot :=
  { x_rotation_accum := n.x_rotation_accum
  , y_rotation_accum := n.y_rotation_accum
  , z_rotation_accum := n.z_rotation_accum
  , forward := n.forward
  , backward := n.backward
  , left := n.left
  , right := n.right
  , fire := n.fire
  , firealt := n.firealt
  , jump := n.jump }

/-- `proto.outQueue` (index.js 368-372): the body executes
`this.outQueue.push(data)` — but `this.outQueue` resolves to this very
method, a function, which has no `push` property, so the call raises a
TypeError before any state is touched.  In particular `this.buffer` is never
written. -/
def outQueue (_s : DC) (_d : Snapshot) : Except String DC :=
  Except.error "TypeError: this.outQueue.push is not a function"

/-- `proto.emitUpdate` (index.js 322-335): build the snapshot from the
current action (a `null` action raises a TypeError while evaluating the
argument) and hand it to `outQueue`, which always raises. -/
def emitUpdate (s : DC) : Except String DC :=
  match s.action with
  | none => Except.error "TypeError: cannot read property of null action"
  | some n => outQueue s (mkSnapshot n)

/-- `proto.target` used as a setter. -/
def setTarget (s : DC) (t : Target) : DC :=
  { s with target := some t }

/-- A host target at the origin, grounded, gravity applied, with the
three.js default local axes for zero yaw. -/
def t0 : Target :=
  { yawpos := ⟨.num 0, .num 0, .num 0⟩
  , rotY := 0
  , avatarpos := qzero
  , xAxis := ⟨1, 0, 0⟩
  , zAxis := ⟨0, 0, 1⟩
  , restingY := true
  , velocity := qzero
  , accel := qzero
  , hasGravity := true }

/-- A freshly bound controller with explicit bounds and queue. -/
def mkDC (b : Bounds) (q : List Act) : DC :=
  { action := none
  , target := some t0
  , max_actions := 1024
  , bounds := b
  , queue := q
  , buffer := []
  , paused := false
  , dropped := 0 }

/-- The command `{translateX: 7, duration: 1000}`. -/
def cmdTx7 : Act := { translateX := some 7, duration := some 1000 }

/-- The command `{translateX: 8, duration: 1000}`. -/
def cmdTx8 : Act := { translateX := some 8, duration := some 1000 }

/-- The command `{forward: 1, translateZ: 3, duration: 1000}`. -/
def cmdFwdTz : Act := { forward := some 1, translateZ := some 3, duration := some 1000 }

/-!  Theorems: one per claim of the specification, plus shared helpers.  -/

/-- Claim C1 (code bug, evaluated at the failing input): target at the
origin, unbounded movement, command `{translateX: 7, duration: 1000}`.  The
normalizer precomputes `_endpos = (7,0,0)`; a single `tick(1000)` crosses the
duration, nulls the action, writes `_endrotate` into the rotation and
re-applies gravity — but the position stays at the origin instead of
`_endpos`, because the completion call `setPosition(target, endpos)` only
clamps `endpos` against the bounds and never copies it into the target. -/
theorem C1_completion_does_not_snap_to_endpos :
    ((setupAction (mkDC noBounds [cmdTx7])).action.map (fun n => n.endpos)) = some ⟨7, 0, 0⟩
    ∧ (tick (mkDC noBounds [cmdTx7]) 1000).action = none
    ∧ ((tick (mkDC noBounds [cmdTx7]) 1000).target.map (fun t => t.yawpos))
        = some ⟨.num 0, .num 0, .num 0⟩
    ∧ ((tick (mkDC noBounds [cmdTx7]) 1000).target.map (fun t => t.rotY)) = some 0
    ∧ ((tick (mkDC noBounds [cmdTx7]) 1000).target.map (fun t => t.hasGravity)) = some true
    ∧ QVec.mk 7 0 0 ≠ QVec.mk 0 0 0 := by
  norm_num [tick, setupAction, mkNAct, normalizeIntents, validateAction, truthy, jsOr, heightDefault,
    getEndPosition, mkDC, t0, setPositionFrom, setPositionSelf,
    clampMin, clampMax, teardownAction, QVec.add, QVec.smul, qzero, Coord.toQ,
    Target.translateZrel, Target.translateXrel, noBounds, defaultBounds,
    cmdTx7, cmdTx8, cmdFwdTz, emitUpdate, outQueue, mkSnapshot]

/-- Claim C2 (code bug, evaluated at the failing input): with the
constructor-default bounds (every side `null`), `setPosition` does clamp —
JS coerces `null` to `0` in the comparison and then assigns the raw `null`
into the coordinate.  A position `(-5, 0, 0)` comes out as `(null, 0, 0)`:
the x axis, whose min bound is `null` ("no bound" per the code's own
comment), is modified; a positive coordinate is likewise collapsed through
the `null` max bound. -/
theorem C2_null_bound_side_still_clamps :
    setPositionSelf defaultBounds ⟨.num (-5), .num 0, .num 0⟩ = ⟨.jnull, .num 0, .num 0⟩
    ∧ setPositionSelf defaultBounds ⟨.num 3, .num 0, .num 0⟩ = ⟨.jnull, .num 0, .num 0⟩
    ∧ Coord.jnull ≠ Coord.num (-5) := by
  refine ⟨?_, ?_, by decide⟩ <;>
  norm_num [tick, setupAction, mkNAct, normalizeIntents, validateAction, truthy, jsOr, heightDefault,
    getEndPosition, mkDC, t0, setPositionFrom, setPositionSelf,
    clampMin, clampMax, teardownAction, QVec.add, QVec.smul, qzero, Coord.toQ,
    Target.translateZrel, Target.translateXrel, noBounds, defaultBounds,
    cmdTx7, cmdTx8, cmdFwdTz, emitUpdate, outQueue, mkSnapshot]

/-- Claim C4 (code bug, evaluated at the failing input): command
`{translateX: 8, duration: 1000}` from the origin with unbounded movement.
One `tick(1000)` terminates at position `(0,0,0)`; two ticks of 500
terminate at `(4, 1/2, 0)` (half the translation plus the parabola apex),
because the frame that crosses the duration never snaps to `_endpos`.  The
terminal states differ, so equal-step splitting is not equivalent to one
large step. -/
theorem C4_terminal_state_depends_on_step_count :
    ((tick (mkDC noBounds [cmdTx8]) 1000).target.map (fun t => t.yawpos))
        = some ⟨.num 0, .num 0, .num 0⟩
    ∧ ((tick (tick (mkDC noBounds [cmdTx8]) 500) 500).target.map (fun t => t.yawpos))
        = some ⟨.num 4, .num (1 / 2), .num 0⟩
    ∧ (tick (mkDC noBounds [cmdTx8]) 1000).action = none
    ∧ (tick (tick (mkDC noBounds [cmdTx8]) 500) 500).action = none
    ∧ CVec.mk (.num 0) (.num 0) (.num 0) ≠ CVec.mk (.num 4) (.num (1 / 2)) (.num 0) := by
  norm_num [tick, setupAction, mkNAct, normalizeIntents, validateAction, truthy, jsOr, heightDefault,
    getEndPosition, mkDC, t0, setPositionFrom, setPositionSelf,
    clampMin, clampMax, teardownAction, QVec.add, QVec.smul, qzero, Coord.toQ,
    Target.translateZrel, Target.translateXrel, noBounds, defaultBounds,
    cmdTx7, cmdTx8, cmdFwdTz, emitUpdate, outQueue, mkSnapshot]

/-- Claim C5 (code bug, evaluated at the failing input): the command
`{forward: 1, translateZ: 3, duration: 1000}` mixes a relative and an
absolute intent, yet `validateAction` leaves `forward` untouched — its
absolute-intent test reads `translateX`/`translateY`/`moveto` and never
`translateZ`.  Both motions then take effect in the same tick: after
`tick(250)` the avatar has moved `-1/4` along its local z axis (the relative
`forward` path) and the yaw position's z has gained `3/4` (the absolute
`translateZ` path). -/
theorem C5_translateZ_does_not_suppress_relative :
    (validateAction cmdFwdTz).forward = some 1
    ∧ (validateAction cmdFwdTz).translateZ = some 3
    ∧ ((tick (mkDC noBounds [cmdFwdTz]) 250).target.map (fun t => t.avatarpos))
        = some ⟨0, 0, -(1 / 4)⟩
    ∧ ((tick (mkDC noBounds [cmdFwdTz]) 250).target.map (fun t => t.yawpos.z))
        = some (.num (3 / 4)) := by
  norm_num [tick, setupAction, mkNAct, normalizeIntents, validateAction, truthy, jsOr, heightDefault,
    getEndPosition, mkDC, t0, setPositionFrom, setPositionSelf,
    clampMin, clampMax, teardownAction, QVec.add, QVec.smul, qzero, Coord.toQ,
    Target.translateZrel, Target.translateXrel, noBounds, defaultBounds,
    cmdTx7, cmdTx8, cmdFwdTz, emitUpdate, outQueue, mkSnapshot]

/-- Claim C9 (code bug, evaluated at the failing input): with an action
current, `emitUpdate()` does not append a snapshot to the Output Channel's
`buffer` — it calls `outQueue`, whose body `this.outQueue.push(data)`
addresses the method itself (a function without `push`) and raises a
TypeError; the buffer stays empty. -/
theorem C9_emitUpdate_raises_instead_of_buffering :
    (setupAction (mkDC noBounds [cmdTx7])).action.isSome = true
    ∧ emitUpdate (setupAction (mkDC noBounds [cmdTx7]))
        = Except.error "TypeError: this.outQueue.push is not a function"
    ∧ (setupAction (mkDC noBounds [cmdTx7])).buffer = [] := by
  norm_num [tick, setupAction, mkNAct, normalizeIntents, validateAction, truthy, jsOr, heightDefault,
    getEndPosition, mkDC, t0, setPositionFrom, setPositionSelf,
    clampMin, clampMax, teardownAction, QVec.add, QVec.smul, qzero, Coord.toQ,
    Target.translateZrel, Target.translateXrel, noBounds, defaultBounds,
    cmdTx7, cmdTx8, cmdFwdTz, emitUpdate, outQueue, mkSnapshot]

/-- With every bound side `undefined` (the empty bounds object), the
per-frame clamp is the identity. -/
lemma setPositionSelf_noBounds (v : CVec) : setPositionSelf noBounds v = v := rfl

/-- `validateAction` never touches `duration`. -/
lemma validateAction_duration (a : Act) : (validateAction a).duration = a.duration := by
  simp only [validateAction]
  split_ifs <;> rfl

/-- `validateAction` never touches `height`. -/
lemma validateAction_height (a : Act) : (validateAction a).height = a.height := by
  simp only [validateAction]
  split_ifs <;> rfl

/-- `validateAction` can only clear `rotate`, so an unset `rotate` stays
unset. -/
lemma validateAction_rotate_none (a : Act) (h : a.rotate = none) :
    (validateAction a).rotate = none := by
  simp only [validateAction]
  split_ifs <;> simp [h]

/-- The whole normalization pipeline never touches `duration`. -/
lemma normalizeIntents_duration (t : Target) (a : Act) :
    (normalizeIntents t a).duration = a.duration := by
  simp only [normalizeIntents]
  cases hmv : (validateAction a).moveto <;> split_ifs <;>
    simp [validateAction_duration]

/-- The whole normalization pipeline never touches `height`. -/
lemma normalizeIntents_height (t : Target) (a : Act) :
    (normalizeIntents t a).height = a.height := by
  simp only [normalizeIntents]
  cases hmv : (validateAction a).moveto <;> split_ifs <;>
    simp [validateAction_height]

/-- The whole normalization pipeline keeps an unset `rotate` unset. -/
lemma normalizeIntents_rotate_none (t : Target) (a : Act) (h : a.rotate = none) :
    (normalizeIntents t a).rotate = none := by
  simp only [normalizeIntents]
  cases hmv : (validateAction a).moveto <;> split_ifs <;>
    simp [validateAction_rotate_none a h]

/-- `v || 1000` is never `0`. -/
lemma jsOr_1000_ne_zero (v : Option ℚ) : jsOr v 1000 ≠ 0 := by
  cases v with
  | none => norm_num [jsOr]
  | some q =>
    by_cases h : q = 0 <;> simp [jsOr, h]

/-- Helper: after any sequence of `write` calls, the queue holds its old
entries followed by the oldest incoming commands up to the effective
capacity `max_actions + 1` (the overflow test is strict `>`), the drop
counter has grown by the number of commands that did not fit, and the call
results are `undefined` (`none`) for each accepted command followed by
`false` for each dropped one. -/
lemma writeTrace_spec (l : List Act) : ∀ s : DC,
    (writeTrace s l).1.queue = s.queue ++ l.take (s.max_actions + 1 - s.queue.length)
    ∧ (writeTrace s l).1.dropped
        = s.dropped + (l.length - (s.max_actions + 1 - s.queue.length))
    ∧ (writeTrace s l).2
        = List.replicate (min (s.max_actions + 1 - s.queue.length) l.length) (none : Option Bool)
          ++ List.replicate (l.length - (s.max_actions + 1 - s.queue.length)) (some false) := by
  induction l with
  | nil =>
    intro s
    simp [writeTrace]
  | cons a l ih =>
    intro s
    by_cases hfull : s.queue.length > s.max_actions
    · have hroom : s.max_actions + 1 - s.queue.length = 0 := by omega
      obtain ⟨h1, h2, h3⟩ := ih { s with dropped := s.dropped + 1 }
      simp only [writeTrace, write, if_pos hfull]
      simp only at h1 h2 h3
      refine ⟨?_, ?_, ?_⟩
      · rw [h1, hroom]
        simp
      · rw [h2, hroom]
        simp only [List.length_cons]
        omega
      · rw [h3, hroom]
        simp [List.replicate_succ]
    · have hroom : ∃ r, s.max_actions + 1 - s.queue.length = r + 1 := by
        refine ⟨s.max_actions - s.queue.length, ?_⟩
        omega
      obtain ⟨r, hr⟩ := hroom
      obtain ⟨h1, h2, h3⟩ := ih { s with queue := s.queue ++ [a] }
      simp only [writeTrace, write, if_neg hfull]
      simp only [List.length_append, List.length_cons, List.length_nil] at h1 h2 h3
      have hr2 : s.max_actions + 1 - (s.queue.length + 1) = r := by omega
      refine ⟨?_, ?_, ?_⟩
      · rw [h1, hr2, hr]
        simp [List.take_succ_cons, List.append_assoc]
      · rw [h2, hr2]
        simp only [List.length_cons]
        omega
      · rw [h3, hr2, hr]
        have hmin : min (r + 1) (a :: l).length = min r l.length + 1 := by
          simp only [List.length_cons]
          omega
        rw [hmin]
        simp only [List.length_cons, List.replicate_succ]
        have hsub : l.length + 1 - (r + 1) = l.length - r := by omega
        rw [hsub]
        simp

/-- Claim C6 (confirmed): starting from an empty queue, feeding
`max_actions + k` commands (`k > 0`) through `write` accepts exactly
`max_actions + 1` of them — the oldest ones, preserved in insertion order —
and counts `k - 1` drops; each accepted call returns `undefined` and each
dropped call returns `false`. -/
theorem C6_queue_overflow_policy (s : DC) (l : List Act) (k : ℕ)
    (hq : s.queue = []) (hk : 0 < k) (hl : l.length = s.max_actions + k) :
    (writeTrace s l).1.queue = l.take (s.max_actions + 1)
    ∧ (writeTrace s l).1.queue.length = s.max_actions + 1
    ∧ (writeTrace s l).1.dropped = s.dropped + (k - 1)
    ∧ (writeTrace s l).2
        = List.replicate (s.max_actions + 1) (none : Option Bool)
          ++ List.replicate (k - 1) (some false) := by
  obtain ⟨h1, h2, h3⟩ := writeTrace_spec l s
  rw [hq] at h1 h2 h3
  simp only [List.length_nil, Nat.sub_zero, List.nil_append] at h1 h2 h3
  have hmin : min (s.max_actions + 1) l.length = s.max_actions + 1 := by omega
  have hsub : l.length - (s.max_actions + 1) = k - 1 := by omega
  refine ⟨h1, ?_, ?_, ?_⟩
  · rw [h1, List.length_take]
    omega
  · rw [h2, hsub]
  · rw [h3, hmin, hsub]

/-- A small command used to exercise the queue. -/
def wCmd (q : ℚ) : Act := { forward := some q }

/-- Witness for C6: capacity 2, five writes — the first three (capacity + 1)
are accepted in order, the last two are dropped with `false` returned, and
the drop counter ends at 2. -/
theorem C6_queue_overflow_policy_witness :
    ((control (some 2) none).queue = []
      ∧ 0 < 3
      ∧ ([wCmd 1, wCmd 2, wCmd 3, wCmd 4, wCmd 5].length
          = (control (some 2) none).max_actions + 3))
    ∧ (writeTrace (control (some 2) none) [wCmd 1, wCmd 2, wCmd 3, wCmd 4, wCmd 5]).1.queue
        = [wCmd 1, wCmd 2, wCmd 3]
    ∧ (writeTrace (control (some 2) none) [wCmd 1, wCmd 2, wCmd 3, wCmd 4, wCmd 5]).1.dropped = 2
    ∧ (writeTrace (control (some 2) none) [wCmd 1, wCmd 2, wCmd 3, wCmd 4, wCmd 5]).2
        = [none, none, none, some false, some false] := by
  have h := C6_queue_overflow_policy (control (some 2) none)
    [wCmd 1, wCmd 2, wCmd 3, wCmd 4, wCmd 5] 3 rfl (by norm_num) (by norm_num [control])
  refine ⟨⟨rfl, by norm_num, by norm_num [control]⟩, ?_, ?_, ?_⟩
  · rw [h.1]
    norm_num [control]
  · rw [h.2.2.1]
    norm_num [control]
  · rw [h.2.2.2]
    norm_num [control, List.replicate_succ]

/-- Claim C7 (confirmed): `setupAction` applies the defaults before any
interpolation can run — a `duration` that is unset or explicitly `0` becomes
`1000` (so the installed action never has duration `0`), an unset `height`
becomes `1/2` while an explicit `height: 0` is kept as `0`, and an unset
`rotate` becomes `0`. -/
theorem C7_normalization_defaults (t : Target) (cmd : Act) (rest : List Act) (m : ℕ)
    (b : Bounds) (buf : List Snapshot) (pz : Bool) (dr : ℕ) (ht : t.restingY = true) :
    (setupAction (DC.mk none (some t) m b (cmd :: rest) buf pz dr)).action
        = some (mkNAct t cmd)
    ∧ ((cmd.duration = none ∨ cmd.duration = some 0) → (mkNAct t cmd).duration = 1000)
    ∧ (mkNAct t cmd).duration ≠ 0
    ∧ (cmd.height = none → (mkNAct t cmd).height = 1 / 2)
    ∧ (cmd.height = some 0 → (mkNAct t cmd).height = 0)
    ∧ (cmd.rotate = none → (mkNAct t cmd).rotate = 0) := by
  refine ⟨?_, ?_, ?_, ?_, ?_, ?_⟩
  · simp [setupAction, ht]
  · intro h
    have hd := normalizeIntents_duration t cmd
    rcases h with h | h <;>
      simp [mkNAct, hd, h, jsOr]
  · exact jsOr_1000_ne_zero _
  · intro h
    have hh := normalizeIntents_height t cmd
    simp [mkNAct, hh, h, heightDefault]
  · intro h
    have hh := normalizeIntents_height t cmd
    simp [mkNAct, hh, h, heightDefault]
  · intro h
    have hr := normalizeIntents_rotate_none t cmd h
    simp [mkNAct, hr, jsOr]

/-- The command `{height: 0}` (everything else unset). -/
def cmdH0 : Act := { height := some 0 }

/-- Witness for C7: the command `{height: 0}` is installed with duration
1000 (the unset-duration default), height exactly 0 (explicit zero is
preserved) and rotate 0. -/
theorem C7_normalization_defaults_witness :
    t0.restingY = true
    ∧ (setupAction (DC.mk none (some t0) 1024 noBounds [cmdH0] [] false 0)).action
        = some (mkNAct t0 cmdH0)
    ∧ (mkNAct t0 cmdH0).duration = 1000
    ∧ (mkNAct t0 cmdH0).height = 0
    ∧ (mkNAct t0 cmdH0).rotate = 0 := by
  have h := C7_normalization_defaults t0 cmdH0 [] 1024 noBounds [] false 0 rfl
  exact ⟨rfl, h.1, h.2.1 (Or.inl rfl), h.2.2.2.2.1 rfl, h.2.2.2.2.2 rfl⟩

/-- Claim C8 (confirmed): `reset()` empties the pending queue; if an action
is active it nulls it and performs the physics teardown (velocity and
acceleration zeroed, gravity re-applied), and in every case the target keeps
its position and rotation exactly as they were — `reset` never snaps to the
action's end state. -/
theorem C8_reset_discards_without_snapping (s : DC) (t : Target) (hT : s.target = some t) :
    (reset s).queue = []
    ∧ (reset s).action = none
    ∧ (reset s).target = some (if s.action.isSome then teardownAction t else t)
    ∧ (teardownAction t).yawpos = t.yawpos
    ∧ (teardownAction t).rotY = t.rotY
    ∧ (teardownAction t).velocity = qzero
    ∧ (teardownAction t).accel = qzero
    ∧ (teardownAction t).hasGravity = true := by
  cases hA : s.action <;> simp [reset, hT, hA, teardownAction]

/-- Witness for C8 at a concrete state with an active action. -/
theorem C8_reset_discards_without_snapping_witness :
    (DC.mk (some (mkNAct t0 cmdH0)) (some t0) 1024 noBounds [cmdH0] [] false 0).target = some t0
    ∧ ((reset (DC.mk (some (mkNAct t0 cmdH0)) (some t0) 1024 noBounds [cmdH0] [] false 0)).queue = []
    ∧ (reset (DC.mk (some (mkNAct t0 cmdH0)) (some t0) 1024 noBounds [cmdH0] [] false 0)).action = none
    ∧ (reset (DC.mk (some (mkNAct t0 cmdH0)) (some t0) 1024 noBounds [cmdH0] [] false 0)).target
        = some (if (DC.mk (some (mkNAct t0 cmdH0)) (some t0) 1024 noBounds [cmdH0] [] false 0).action.isSome
            then teardownAction t0 else t0)
    ∧ (teardownAction t0).yawpos = t0.yawpos
    ∧ (teardownAction t0).rotY = t0.rotY
    ∧ (teardownAction t0).velocity = qzero
    ∧ (teardownAction t0).accel = qzero
    ∧ (teardownAction t0).hasGravity = true) :=
  ⟨rfl, C8_reset_discards_without_snapping
    (DC.mk (some (mkNAct t0 cmdH0)) (some t0) 1024 noBounds [cmdH0] [] false 0) t0 rfl⟩

/-- Claim C3 (confirmed): while an action is running (total elapsed time
`t = _elapsed + dt` with `0 ≤ t < duration`, `duration > 0`), `tick` sets the
target's y position to
`height + startY - (height / (duration/2)^2) * (t - duration/2)^2`, computed
from total elapsed time rather than incrementally; in particular the value
is `height + startY` at `t = duration/2` and `startY` at `t = 0`.  Stated
with unbounded movement (every bound side undefined), so the subsequent
clamp is the identity; `startY` is the numeric reading of `_startpos.y`. -/
theorem C3_vertical_arc_law (n : NAct) (t : Target) (m : ℕ) (q : List Act)
    (buf : List Snapshot) (pz : Bool) (dr : ℕ) (dt : ℚ)
    (hD : 0 < n.duration) (h0 : 0 ≤ n.elapsed + dt) (h1 : n.elapsed + dt < n.duration) :
    ((tick (DC.mk (some n) (some t) m noBounds q buf pz dr) dt).target.map
        (fun tg => tg.yawpos.y))
      = some (.num (n.height + n.startpos.y.toQ
          - n.height / (n.duration / 2) ^ 2 * (n.elapsed + dt - n.duration / 2) ^ 2))
    ∧ (n.elapsed + dt = n.duration / 2 →
        ((tick (DC.mk (some n) (some t) m noBounds q buf pz dr) dt).target.map
            (fun tg => tg.yawpos.y))
          = some (.num (n.height + n.startpos.y.toQ)))
    ∧ (n.elapsed + dt = 0 →
        ((tick (DC.mk (some n) (some t) m noBounds q buf pz dr) dt).target.map
            (fun tg => tg.yawpos.y))
          = some (.num n.startpos.y.toQ)) := by
  have hmain : ((tick (DC.mk (some n) (some t) m noBounds q buf pz dr) dt).target.map
        (fun tg => tg.yawpos.y))
      = some (.num (n.height + n.startpos.y.toQ
          - n.height / (n.duration / 2) ^ 2 * (n.elapsed + dt - n.duration / 2) ^ 2)) := by
    simp only [tick, setupAction]
    rw [if_neg (not_le.mpr h1)]
    split_ifs <;>
      simp [Target.translateZrel, Target.translateXrel, setPositionSelf_noBounds] <;>
      ring_nf
  refine ⟨hmain, ?_, ?_⟩
  · intro he
    rw [hmain, he]
    simp only [Option.some.injEq, Coord.num.injEq]
    ring
  · intro he
    rw [hmain, he]
    have hhalf : n.duration / 2 ≠ 0 := by positivity
    simp only [Option.some.injEq, Coord.num.injEq]
    field_simp

/-- The already-normalized empty command at `t0` (duration 1000, height 1/2,
no intents, start state the origin). -/
def nAct0 : NAct := mkNAct t0 {}

/-- Witness for C3 at the apex: a running action with duration 1000 and
height 1/2, ticked from elapsed 0 by 500, puts y at exactly 1/2. -/
theorem C3_vertical_arc_law_witness :
    (0 < nAct0.duration ∧ nAct0.elapsed + 500 < nAct0.duration)
    ∧ ((tick (DC.mk (some nAct0) (some t0) 1024 noBounds [] [] false 0) 500).target.map
        (fun tg => tg.yawpos.y)) = some (.num (1 / 2)) := by
  have hd : nAct0.duration = 1000 := by
    norm_num [nAct0, mkNAct, normalizeIntents, validateAction, truthy, jsOr]
  have he : nAct0.elapsed = 0 := by
    norm_num [nAct0, mkNAct, normalizeIntents, validateAction, truthy, jsOr]
  have h := (C3_vertical_arc_law nAct0 t0 1024 [] [] false 0 500
      (by rw [hd]; norm_num) (by rw [he]; norm_num) (by rw [hd, he]; norm_num)).2.1
      (by rw [hd, he]; norm_num)
  refine ⟨⟨by rw [hd]; norm_num, by rw [hd, he]; norm_num⟩, ?_⟩
  rw [h]
  norm_num [nAct0, mkNAct, normalizeIntents, validateAction, truthy, jsOr, heightDefault,
    t0, Coord.toQ]

/-- A rotation-only command `{rotate: r, duration: D}`. -/
def rotCmd (r D : ℚ) : Act := { rotate := some r, duration := some D }

/-- `t0` with its y position at `sy`. -/
def tY (sy : ℚ) : Target := { t0 with yawpos := ⟨.num 0, .num sy, .num 0⟩ }

/-- A controller about to run a rotation-only command, unbounded movement. -/
def rotDC (sy r D : ℚ) : DC :=
  DC.mk none (some (tY sy)) 1024 noBounds [rotCmd r D] [] false 0

/-- Claim C10 (confirmed, implicit behaviour): a command that specifies only
a rotation — no movement intent, no height — still has its target's y
position overwritten by the parabolic arc on every running tick: at total
elapsed `dt` (`0 < dt < D`) y becomes
`1/2 + startY - (1/2) / (D/2)^2 * (dt - D/2)^2` (the default height 1/2
driving the arc), and at the apex `dt = D/2` the object sits at
`startY + 1/2`, a genuine vertical displacement. -/
theorem C10_arc_applies_to_rotation_only (sy r D dt : ℚ)
    (h0 : 0 < dt) (h1 : dt < D) :
    ((tick (rotDC sy r D) dt).target.map (fun tg => tg.yawpos.y))
      = some (.num (1 / 2 + sy - 1 / 2 / (D / 2) ^ 2 * (dt - D / 2) ^ 2))
    ∧ (dt = D / 2 →
        ((tick (rotDC sy r D) dt).target.map (fun tg => tg.yawpos.y))
          = some (.num (sy + 1 / 2)))
    ∧ sy + 1 / 2 ≠ sy := by
  have hD : ¬(D = 0) := by
    intro h
    rw [h] at h1
    linarith
  have hmain : ((tick (rotDC sy r D) dt).target.map (fun tg => tg.yawpos.y))
      = some (.num (1 / 2 + sy - 1 / 2 / (D / 2) ^ 2 * (dt - D / 2) ^ 2)) := by
    simp only [rotDC, tY, t0, rotCmd, tick, setupAction, mkNAct, normalizeIntents,
      validateAction, truthy, jsOr, heightDefault, getEndPosition, qzero]
    norm_num [hD]
    rw [if_neg (not_le.mpr h1)]
    split_ifs <;>
      simp [Target.translateZrel, Target.translateXrel, setPositionSelf_noBounds,
        Coord.toQ] <;>
      ring_nf
  refine ⟨hmain, ?_, ?_⟩
  · intro he
    rw [hmain, he]
    simp only [Option.some.injEq, Coord.num.injEq]
    ring
  · intro hcon
    have : (1 : ℚ) / 2 = 0 := by linarith
    norm_num at this

/-- Witness for C10 at the apex: rotation-only command with duration 1000,
ticked by 500 from a start height of 0, ends the frame at y = 0 + 1/2. -/
theorem C10_arc_applies_to_rotation_only_witness :
    ((0 : ℚ) < 500 ∧ (500 : ℚ) < 1000)
    ∧ ((tick (rotDC 0 1 1000) 500).target.map (fun tg => tg.yawpos.y))
        = some (.num (0 + 1 / 2)) := by
  have h := (C10_arc_applies_to_rotation_only 0 1 1000 500
      (by norm_num) (by norm_num)).2.1 (by norm_num)
  exact ⟨⟨by norm_num, by norm_num⟩, h⟩

end VoxelDC
